import Mathlib

/-!
Verification of Citadel's detection engine (Go package `pkg/ml`), shallowly
embedded in Lean.  Go `float64` scores, weights and confidences are modelled
as rationals (`ℚ`); Go strings as Lean `String`.  The embedding follows the
Go sources line by line; where a definition lives in a repository file that
was not staged (only its callers or tests are), its doc comment starts with
"Modelled from the spec:".
-/

namespace Citadel

/-- Modelled from the spec: the `SignalSource` constants (`signals.go` is not
among the staged files; `aggregator.go` only uses them).  Spec §3 lists
`source ∈ \x7bheuristic, bert, semantic, llm, safeguard, deeper_go\x7d`. -/
inductive SignalSource
  | heuristic
  | bert
  | semantic
  | llm
  | safeguard
  | deeperGo
deriving DecidableEq, Repr

/-- The on-the-wire string of a source, per spec §3. -/
def SignalSource.str : SignalSource → String
  | .heuristic => "heuristic"
  | .bert => "bert"
  | .semantic => "semantic"
  | .llm => "llm"
  | .safeguard => "safeguard"
  | .deeperGo => "deeper_go"

/-- One detector signal (spec §3 "DetectionSignal"; the Go struct lives in a
file that was not staged, its shape is fixed by the spec and by every use in
`aggregator.go`).  `Metadata` is a `map[string]interface\x7b\x7d` in Go; the
aggregator reads only the key `secrets_found` with a `bool` type assertion,
so the embedding keeps just that key as an `Option Bool` (`none` models a
missing key or a non-bool value). -/
structure DetectionSignal where
  source : SignalSource
  score : ℚ
  confidence : ℚ
  label : String
  weight : ℚ
  reasons : List String
  obfuscationTypes : List String
  latencyMs : ℚ
  secretsFound : Option Bool
deriving DecidableEq, Repr

/-- Modelled from the spec: `DetectionSignal.IsHighConfidence` (defined in the
unstaged `signals.go`).  TIER 1 of spec §4.6 reads "Collect all signals with
`confidence ≥ 0.85`", and §6 fixes `high_confidence = 0.85`. -/
def DetectionSignal.IsHighConfidence (s : DetectionSignal) : Bool :=
  decide (85/100 ≤ s.confidence)

/-- Modelled from the spec: `DetectionSignal.IsLowConfidence` (unstaged
`signals.go`); §6 fixes `low_confidence = 0.70`. -/
def DetectionSignal.IsLowConfidence (s : DetectionSignal) : Bool :=
  decide (s.confidence < 70/100)

/-- Modelled from the spec: `DetectionSignal.IsSafe` (unstaged `signals.go`);
spec §3 has `label ∈ \x7bSAFE, INJECTION, UNKNOWN\x7d` and §4.6 reads the
`SAFE` label off the signal. -/
def DetectionSignal.IsSafe (s : DetectionSignal) : Bool :=
  s.label == "SAFE"

/-- Modelled from the spec: `DetectionSignal.IsMalicious` (unstaged
`signals.go`); the `INJECTION` label. -/
def DetectionSignal.IsMalicious (s : DetectionSignal) : Bool :=
  s.label == "INJECTION"

/-- Modelled from the spec: `DetectionSignal.HasObfuscation` (unstaged
`signals.go`); a signal carries obfuscation markers when its
`obfuscation_types` set is non-empty (spec §3). -/
def DetectionSignal.HasObfuscation (s : DetectionSignal) : Bool :=
  !s.obfuscationTypes.isEmpty

/-- `AggregationThresholds` (aggregator.go). -/
structure AggregationThresholds where
  fastPathBlock : ℚ
  fastPathAllow : ℚ
  bertEscalation : ℚ
  safeguardEscalation : ℚ
  obfuscationBoost : ℚ
  highConfidenceThreshold : ℚ
  lowConfidenceThreshold : ℚ
deriving DecidableEq, Repr

/-- `DefaultAggregationThresholds` (aggregator.go). -/
def DefaultAggregationThresholds : AggregationThresholds :=
  { fastPathBlock := 85/100
    fastPathAllow := 5/100
    bertEscalation := 30/100
    safeguardEscalation := 40/100
    obfuscationBoost := 13/10
    highConfidenceThreshold := 85/100
    lowConfidenceThreshold := 70/100 }

/-- `AggregatedResult` (aggregator.go).  `EscalationNeeded` is the Go string
type `EscalationType` whose constants are "", "bert", "deeper_go",
"safeguard". -/
structure AggregatedResult where
  finalScore : ℚ
  action : String
  riskLevel : String
  reason : String
  decisionPath : String
  signals : List DetectionSignal
  wasDeobfuscated : Bool
  obfuscationTypes : List String
  escalationNeeded : String
  totalLatencyMs : ℚ
deriving DecidableEq, Repr

/-- `SignalAggregator` (aggregator.go): thresholds plus the ordered list of
added signals. -/
structure SignalAggregator where
  thresholds : AggregationThresholds
  signals : List DetectionSignal
deriving DecidableEq, Repr

/-- `GetSignal` (aggregator.go): the first signal from the given source. -/
def SignalAggregator.GetSignal (a : SignalAggregator) (src : SignalSource) :
    Option DetectionSignal :=
  a.signals.find? fun s => s.source == src

/-- `HasSignal` (aggregator.go). -/
def SignalAggregator.HasSignal (a : SignalAggregator) (src : SignalSource) : Bool :=
  (a.GetSignal src).isSome

/-- `HasObfuscation` on the aggregator (aggregator.go). -/
def SignalAggregator.HasObfuscation (a : SignalAggregator) : Bool :=
  a.signals.any DetectionSignal.HasObfuscation

/-- `GetAllObfuscationTypes` (aggregator.go): the union of the signals'
obfuscation types, first occurrence first, duplicates dropped. -/
def SignalAggregator.GetAllObfuscationTypes (a : SignalAggregator) : List String :=
  a.signals.foldl
    (fun acc s =>
      s.obfuscationTypes.foldl
        (fun acc t => if acc.contains t then acc else acc ++ [t]) acc)
    []

/-- `calculateWeightedScore` (aggregator.go): the confidence-weighted mean,
with `effectiveWeight = weight × confidence`; 0 for an empty signal list and
0 when the total effective weight is 0. -/
def SignalAggregator.calculateWeightedScore (a : SignalAggregator) : ℚ :=
  if a.signals.isEmpty then 0
  else
    let weightedSum := (a.signals.map fun s => s.score * (s.weight * s.confidence)).sum
    let totalWeight := (a.signals.map fun s => s.weight * s.confidence).sum
    if totalWeight = 0 then 0 else weightedSum / totalWeight

/-- `scoreToAction` (aggregator.go); the receiver is unused in Go, the
thresholds 0.70 and 0.40 are literals. -/
def scoreToAction (score : ℚ) : String :=
  if 70/100 ≤ score then "BLOCK"
  else if 40/100 ≤ score then "WARN"
  else "ALLOW"

/-- `scoreToRiskLevel` (aggregator.go); literals 0.90, 0.70, 0.50, 0.30. -/
def scoreToRiskLevel (score : ℚ) : String :=
  if 90/100 ≤ score then "CRITICAL"
  else if 70/100 ≤ score then "HIGH"
  else if 50/100 ≤ score then "MEDIUM"
  else if 30/100 ≤ score then "LOW"
  else "MINIMAL"

/-- The helper `abs` of aggregator.go. -/
def floatAbs (x : ℚ) : ℚ :=
  if x < 0 then -x else x

/-- `ShouldEscalateToSafeguard` (aggregator.go). -/
def SignalAggregator.ShouldEscalateToSafeguard (a : SignalAggregator) : Bool :=
  let early :=
    match a.GetSignal .bert, a.GetSignal .heuristic with
    | some b, some h =>
        decide (3/10 < floatAbs (b.score - h.score)) ||
          (b.IsLowConfidence && a.HasObfuscation && b.IsSafe)
    | _, _ => false
  if early then true
  else
    let score := a.calculateWeightedScore
    if a.thresholds.safeguardEscalation ≤ score ∧ score ≤ 70/100 then
      if a.signals.any DetectionSignal.IsHighConfidence then false else true
    else false

/-- `ShouldTriggerDeeperGoAnalysis` (aggregator.go). -/
def SignalAggregator.ShouldTriggerDeeperGoAnalysis (a : SignalAggregator) : Bool :=
  match a.GetSignal .bert with
  | none => false
  | some b =>
    if b.confidence < a.thresholds.lowConfidenceThreshold then
      if a.HasObfuscation && b.IsSafe then true
      else
        match a.GetSignal .heuristic with
        | some h =>
            (b.IsMalicious && decide (h.score < 3/10)) ||
              (b.IsSafe && decide (4/10 < h.score))
        | none => false
    else false

/-- Rendering of a rational where Go formats a float (`%.2f`, `%.0f%%`); the
decimal formatting itself carries no verified content, so the embedding
prints `numerator/denominator`. -/
def ratStr (q : ℚ) : String :=
  toString q.num ++ "/" ++ toString q.den

/-- `buildAggregationReason` (aggregator.go): "No signals" for an empty list,
otherwise a comma-joined per-signal summary (score rendering per `ratStr`). -/
def SignalAggregator.buildAggregationReason (a : SignalAggregator) : String :=
  match a.signals with
  | [] => "No signals"
  | _ =>
    String.intercalate ", " <| a.signals.map fun s =>
      s.source.str ++ "=" ++ ratStr s.score ++
        (if s.label ≠ "" then "(" ++ s.label ++ ")" else "") ++
        (if s.IsHighConfidence then "[HC]"
         else if s.IsLowConfidence then "[LC]" else "")

/-- The skeleton result Go builds first in `Aggregate` (aggregator.go):
signals, deobfuscation flags and total latency are filled in before any tier
runs; every early return copies these fields. -/
def SignalAggregator.baseResult (a : SignalAggregator) : AggregatedResult :=
  { finalScore := 0
    action := ""
    riskLevel := ""
    reason := ""
    decisionPath := ""
    signals := a.signals
    wasDeobfuscated := a.HasObfuscation
    obfuscationTypes := a.GetAllObfuscationTypes
    escalationNeeded := ""
    totalLatencyMs := (a.signals.map DetectionSignal.latencyMs).sum }

/-- TIER 0, first loop of `Aggregate` (aggregator.go): any signal whose
metadata holds `secrets_found = true` returns the absolute-block result. -/
def SignalAggregator.tier0Secrets (a : SignalAggregator) : Option AggregatedResult :=
  (a.signals.find? fun s => s.secretsFound == some true).map fun _ =>
    { a.baseResult with
      finalScore := 1
      action := "BLOCK"
      riskLevel := "CRITICAL"
      reason := "Secrets/credentials detected"
      decisionPath := "TIER_0_SECRETS" }

/-- TIER 0, second loop of `Aggregate` (aggregator.go): the first signal with
`score ≥ 0.95` and high confidence blocks.  The Go reason string joins the
signal's reasons with "; ". -/
def SignalAggregator.tier0HighScore (a : SignalAggregator) : Option AggregatedResult :=
  (a.signals.find? fun s => decide (95/100 ≤ s.score) && s.IsHighConfidence).map fun s =>
    { a.baseResult with
      finalScore := s.score
      action := "BLOCK"
      riskLevel := "CRITICAL"
      reason := s.source.str ++ ": " ++ String.intercalate "; " s.reasons
      decisionPath := "TIER_0_HIGH_SCORE_" ++ s.source.str }

/-- The head of the confidence-descending sort of `Aggregate`'s TIER 1
(aggregator.go).  Go runs `sort.Slice` with the strict comparator
`confidence_i > confidence_j`; on slices of this size (at most one signal per
source, six sources < 12 elements) Go's sort runs its insertion sort, which
is stable, so equal confidences keep insertion order and the head is the
FIRST signal in list order attaining the maximal confidence. -/
def firstMaxByConfidence : DetectionSignal → List DetectionSignal → DetectionSignal
  | best, [] => best
  | best, s :: rest =>
    if best.confidence < s.confidence then firstMaxByConfidence s rest
    else firstMaxByConfidence best rest

/-- TIER 1 of `Aggregate` (aggregator.go): if there are high-confidence
signals and all of them carry the top signal's label, the top-confidence
signal's score decides.  The Go reason's "%.0f%%" confidence rendering is
elided (`ratStr`). -/
def SignalAggregator.tier1HighConfidence (a : SignalAggregator) : Option AggregatedResult :=
  match a.signals.filter DetectionSignal.IsHighConfidence with
  | [] => none
  | h :: t =>
    let top := firstMaxByConfidence h t
    if (h :: t).all fun s => s.label == top.label then
      some { a.baseResult with
        finalScore := top.score
        action := scoreToAction top.score
        riskLevel := scoreToRiskLevel top.score
        reason := "High-confidence " ++ top.source.str ++ ": " ++ top.label ++
          " (" ++ ratStr (top.confidence * 100) ++ ")"
        decisionPath := "TIER_1_HIGH_CONFIDENCE_AGREEMENT" }
    else none

/-- Go's clamp idiom `if x > 1.0 \x7b x = 1.0 \x7d` (aggregator.go). -/
def capAtOne (x : ℚ) : ℚ :=
  if 1 < x then 1 else x

/-- TIER 2 of `Aggregate` (aggregator.go), entered only when obfuscation was
observed and both a heuristic and a BERT signal exist.  Case 1: BERT says
SAFE below the high-confidence threshold; the boosted heuristic score vetoes
when the BOOSTED score reaches 0.5.  Case 2: BERT malicious and heuristic
≥ 0.4 fuse as boosted average. -/
def SignalAggregator.tier2Obfuscation (a : SignalAggregator) : Option AggregatedResult :=
  if a.HasObfuscation then
    match a.GetSignal .heuristic, a.GetSignal .bert with
    | some h, some b =>
      let caseVeto : Option AggregatedResult :=
        if b.IsSafe && decide (b.confidence < a.thresholds.highConfidenceThreshold) then
          let boosted := capAtOne (h.score * a.thresholds.obfuscationBoost)
          if 1/2 ≤ boosted then
            some { a.baseResult with
              finalScore := boosted
              action := scoreToAction boosted
              riskLevel := scoreToRiskLevel boosted
              reason := "Obfuscation veto: BERT said SAFE (" ++
                ratStr (b.confidence * 100) ++ ") but obfuscation detected"
              decisionPath := "TIER_2_OBFUSCATION_VETO"
              escalationNeeded := "deeper_go" }
          else none
        else none
      match caseVeto with
      | some r => some r
      | none =>
        if b.IsMalicious && decide (4/10 ≤ h.score) then
          let boosted := capAtOne ((b.score + h.score) / 2 * a.thresholds.obfuscationBoost)
          some { a.baseResult with
            finalScore := boosted
            action := scoreToAction boosted
            riskLevel := scoreToRiskLevel boosted
            reason := "Obfuscation + agreement: Go=" ++ ratStr h.score ++
              ", BERT=" ++ b.label ++ " (" ++ ratStr (b.confidence * 100) ++ ")"
            decisionPath := "TIER_2_OBFUSCATION_BOOST" }
        else none
    | _, _ => none
  else none

/-- TIER 3 of `Aggregate` (aggregator.go): confidence-weighted mean, the
obfuscation boost on moderate scores (0.3 ≤ score < 0.7), and the escalation
checks. -/
def SignalAggregator.tier3Weighted (a : SignalAggregator) : AggregatedResult :=
  let score0 := a.calculateWeightedScore
  let score :=
    if a.HasObfuscation && decide (3/10 ≤ score0) && decide (score0 < 7/10) then
      capAtOne (score0 * a.thresholds.obfuscationBoost)
    else score0
  let esc :=
    if a.ShouldEscalateToSafeguard && !a.HasSignal .safeguard then "safeguard"
    else if a.ShouldTriggerDeeperGoAnalysis && !a.HasSignal .deeperGo then "deeper_go"
    else ""
  { a.baseResult with
    finalScore := score
    action := scoreToAction score
    riskLevel := scoreToRiskLevel score
    reason := a.buildAggregationReason
    decisionPath := "TIER_3_WEIGHTED_AGGREGATION"
    escalationNeeded := esc }

/-- `Aggregate` (aggregator.go): the tiers in precedence order; the first
tier that fires returns. -/
def SignalAggregator.Aggregate (a : SignalAggregator) : AggregatedResult :=
  match a.tier0Secrets with
  | some r => r
  | none =>
    match a.tier0HighScore with
    | some r => r
    | none =>
      match a.tier1HighConfidence with
      | some r => r
      | none =>
        match a.tier2Obfuscation with
        | some r => r
        | none => a.tier3Weighted

/-- `categoryToLower` (category normalizer file): byte-wise ASCII lowering,
`A`..`Z` mapped to `a`..`z`, everything else kept.  The embedding works per
character; on ASCII text (all category names and benign patterns) this agrees
with Go byte-wise lowering, and with `strings.ToLower` as used by
`ApplyBenignPatternDiscount` (seed_loader.go). -/
def categoryToLower (s : String) : String :=
  String.mk <| s.data.map fun c =>
    if 'A' ≤ c ∧ c ≤ 'Z' then Char.ofNat (c.toNat + 32) else c

/-- `categoryContainsSubstr` (category normalizer file) on character lists:
scan every position of the haystack for the needle.  An empty needle matches
anything, matching the Go early return. -/
def containsSub (need : List Char) : List Char → Bool
  | [] => need.isEmpty
  | c :: t => need.isPrefixOf (c :: t) || containsSub need t

/-- `categoryContainsSubstr` on strings (category normalizer file). -/
def categoryContainsSubstr (s substr : String) : Bool :=
  containsSub substr.data s.data

/-- `categoryContainsAny` (category normalizer file): lowercase the category
once, then test each (already lowercase) needle. -/
def categoryContainsAny (category : String) (substrs : List String) : Bool :=
  substrs.any fun sub => categoryContainsSubstr (categoryToLower category) sub

/-- `MaxBenignDiscount` (seed_loader.go): the benign-pattern discount floor,
−0.65. -/
def MaxBenignDiscount : ℚ := -(65/100)

/-- `ApplyBenignPatternDiscount` (seed_loader.go).  Go reads the pattern
table from the loaded config (`GetBenignPatterns`, a Go map); the embedding
takes the table as a list argument.  Go map iteration order is arbitrary,
but the returned discount is a sum over the matching entries, which is
iteration-order independent; the matched-pattern list keeps table order. -/
def ApplyBenignPatternDiscount (benignPatterns : List (String × ℚ))
    (text : String) : ℚ × List String :=
  if benignPatterns.isEmpty then (0, [])
  else
    let textLower := categoryToLower text
    let acc := benignPatterns.foldl
      (fun acc p =>
        if categoryContainsSubstr textLower (categoryToLower p.1) then
          (acc.1 + p.2, acc.2 ++ [p.1])
        else acc)
      (0, [])
    (if acc.1 < MaxBenignDiscount then MaxBenignDiscount else acc.1, acc.2)

/-- The sum of the weights of the benign patterns matching `text` — the
pre-floor discount of `ApplyBenignPatternDiscount`. -/
def benignMatchedSum (benignPatterns : List (String × ℚ)) (text : String) : ℚ :=
  ((benignPatterns.filter fun p =>
      categoryContainsSubstr (categoryToLower text) (categoryToLower p.1)).map
    Prod.snd).sum

/-- `TISCategory` (category normalizer file): the unified threat category
constants. -/
inductive TISCategory
  | instructionOverride
  | jailbreak
  | roleplay
  | dataExfil
  | dataDump
  | commandInjection
  | fileAccess
  | contextManipulation
  | tokenExhaustion
  | goalHijacking
  | autonomyAbuse
  | hallucinationInjection
  | mcpInjection
  | paymentFraud
  | impersonation
  | psychological
  | socialEngineering
  | obfuscation
  | multiTurn
  | indirectInjection
  | unknown
deriving DecidableEq, Repr

/-- `TISCategory.String` (category normalizer file): the underlying string of
each category constant. -/
def TISCategory.str : TISCategory → String
  | .instructionOverride => "instruction_override"
  | .jailbreak => "jailbreak"
  | .roleplay => "roleplay"
  | .dataExfil => "data_exfil"
  | .dataDump => "data_dump"
  | .commandInjection => "command_injection"
  | .fileAccess => "file_access"
  | .contextManipulation => "context_manipulation"
  | .tokenExhaustion => "token_exhaustion"
  | .goalHijacking => "goal_hijacking"
  | .autonomyAbuse => "autonomy_abuse"
  | .hallucinationInjection => "hallucination_injection"
  | .mcpInjection => "mcp_injection"
  | .paymentFraud => "payment_fraud"
  | .impersonation => "impersonation"
  | .psychological => "psychological"
  | .socialEngineering => "social_engineering"
  | .obfuscation => "obfuscation"
  | .multiTurn => "multi_turn"
  | .indirectInjection => "indirect_injection"
  | .unknown => "unknown"

/-- `internalCategoryMapping` (category normalizer file), as an association
list; the Go map's keys are pairwise distinct literals, so `List.lookup`
computes the same partial function. -/
def internalCategoryMapping : List (String × TISCategory) :=
  [("instruction_override", .instructionOverride),
   ("authority_bypass", .jailbreak),
   ("information_extraction", .dataExfil),
   ("roleplay_attack", .roleplay),
   ("code_execution", .commandInjection),
   ("fiction_frame", .multiTurn),
   ("persona_hijack", .jailbreak),
   ("eval_abuse", .jailbreak),
   ("escalation", .multiTurn),
   ("safety_disable", .jailbreak),
   ("restrictions_disable", .jailbreak),
   ("filter_disable", .jailbreak),
   ("unsafe_mode", .jailbreak),
   ("admin_override", .impersonation),
   ("elevated_trust", .impersonation),
   ("xml_policy", .instructionOverride),
   ("ini_policy", .instructionOverride),
   ("xss", .commandInjection),
   ("sql_injection", .commandInjection),
   ("code_injection", .commandInjection),
   ("command_injection", .commandInjection),
   ("path_traversal", .fileAccess),
   ("deserialization", .commandInjection),
   ("ssrf", .indirectInjection),
   ("csrf", .indirectInjection),
   ("auth_bypass", .impersonation),
   ("hardcoded_creds", .dataExfil),
   ("info_disclosure", .dataExfil),
   ("file_upload", .fileAccess),
   ("memory_corruption", .commandInjection),
   ("buffer_overflow", .commandInjection),
   ("use_after_free", .commandInjection),
   ("privilege_escalation", .impersonation),
   ("vulnerability", .unknown),
   ("injection", .commandInjection),
   ("rce", .commandInjection),
   ("dos", .tokenExhaustion),
   ("malware", .indirectInjection),
   ("supply_chain", .indirectInjection),
   ("jailbreak", .jailbreak),
   ("roleplay", .roleplay),
   ("data_exfil", .dataExfil),
   ("data_dump", .dataDump),
   ("file_access", .fileAccess),
   ("context_manipulation", .contextManipulation),
   ("token_exhaustion", .tokenExhaustion),
   ("goal_hijacking", .goalHijacking),
   ("autonomy_abuse", .autonomyAbuse),
   ("hallucination_injection", .hallucinationInjection),
   ("mcp_injection", .mcpInjection),
   ("payment_fraud", .paymentFraud),
   ("impersonation", .impersonation),
   ("psychological", .psychological),
   ("social_engineering", .socialEngineering),
   ("obfuscation", .obfuscation),
   ("multi_turn", .multiTurn),
   ("indirect_injection", .indirectInjection)]

/-- `NormalizeCategory` (category normalizer file): empty → unknown; direct
map lookup; then the keyword fallback cascade; else unknown. -/
def NormalizeCategory (category : String) : TISCategory :=
  if category = "" then .unknown
  else
    match internalCategoryMapping.lookup category with
    | some tis => tis
    | none =>
      if categoryContainsAny category ["inject", "override", "ignore", "bypass"] then
        .instructionOverride
      else if categoryContainsAny category ["jailbreak", "dan", "unrestrict", "persona"] then
        .jailbreak
      else if categoryContainsAny category ["exfil", "extract", "leak", "expose"] then
        .dataExfil
      else if categoryContainsAny category ["exec", "shell", "command", "code"] then
        .commandInjection
      else if categoryContainsAny category ["obfusc", "encod", "evas"] then
        .obfuscation
      else if categoryContainsAny category ["social", "manipul", "urgen", "pressure"] then
        .socialEngineering
      else if categoryContainsAny category ["multi", "turn", "crescendo", "escal"] then
        .multiTurn
      else if categoryContainsAny category ["payment", "fraud", "wallet", "x402"] then
        .paymentFraud
      else if categoryContainsAny category ["imperson", "authority", "admin"] then
        .impersonation
      else if categoryContainsAny category ["file", "path", "traversal"] then
        .fileAccess
      else if categoryContainsAny category ["mcp", "tool", "agent"] then
        .mcpInjection
      else .unknown

/-- Modelled from the spec: `TryGzipDecompress` (decoders.go is not among the
staged files; only its tests are).  Spec §4.1: "Gzip-in-Base64 — decode,
decompress, hard-cap output at 1 MiB (zip-bomb guard)".  Locating the base64
run, base64-decoding it and gzip-inflating are the external
`encoding/base64` / `compress/gzip` machinery, abstracted here as the
`inflate` argument (`none` models "no gzip payload found or inflation
failed", on which Go returns "").  The decoder truncates whatever inflates
at the 1 MiB cap. -/
def TryGzipDecompress (inflate : String → Option (List Char)) (input : String) :
    List Char :=
  match inflate input with
  | none => []
  | some out => out.take (1024 * 1024)

/-! Helper lemmas: which tier decides `Aggregate`'s result. -/

theorem aggregate_eq_of_tier0Secrets {a : SignalAggregator} {r : AggregatedResult}
    (h : a.tier0Secrets = some r) : a.Aggregate = r := by
  unfold SignalAggregator.Aggregate
  rw [h]

theorem aggregate_eq_of_tier0HighScore {a : SignalAggregator} {r : AggregatedResult}
    (h0 : a.tier0Secrets = none) (h : a.tier0HighScore = some r) :
    a.Aggregate = r := by
  unfold SignalAggregator.Aggregate
  rw [h0, h]

theorem aggregate_eq_of_tier1 {a : SignalAggregator} {r : AggregatedResult}
    (h0 : a.tier0Secrets = none) (h1 : a.tier0HighScore = none)
    (h : a.tier1HighConfidence = some r) : a.Aggregate = r := by
  unfold SignalAggregator.Aggregate
  rw [h0, h1, h]

theorem aggregate_eq_of_tier2 {a : SignalAggregator} {r : AggregatedResult}
    (h0 : a.tier0Secrets = none) (h1 : a.tier0HighScore = none)
    (h2 : a.tier1HighConfidence = none) (h : a.tier2Obfuscation = some r) :
    a.Aggregate = r := by
  unfold SignalAggregator.Aggregate
  rw [h0, h1, h2, h]

theorem aggregate_eq_of_tier3 {a : SignalAggregator}
    (h0 : a.tier0Secrets = none) (h1 : a.tier0HighScore = none)
    (h2 : a.tier1HighConfidence = none) (h3 : a.tier2Obfuscation = none) :
    a.Aggregate = a.tier3Weighted := by
  unfold SignalAggregator.Aggregate
  rw [h0, h1, h2, h3]

/-- Fallback ranking of the risk-level strings, `MINIMAL` lowest. -/
def riskRank : String → ℕ := fun r =>
  if r = "CRITICAL" then 4
  else if r = "HIGH" then 3
  else if r = "MEDIUM" then 2
  else if r = "LOW" then 1
  else 0

/-- C6: `scoreToRiskLevel` implements exactly the risk table — CRITICAL for
s ≥ 0.90, HIGH for 0.70 ≤ s < 0.90, MEDIUM for 0.50 ≤ s < 0.70, LOW for
0.30 ≤ s < 0.50, MINIMAL otherwise — and is monotonically non-decreasing
under MINIMAL < LOW < MEDIUM < HIGH < CRITICAL. -/
theorem scoreToRiskLevel_table_and_monotone :
    (∀ s : ℚ, 90/100 ≤ s → scoreToRiskLevel s = "CRITICAL") ∧
    (∀ s : ℚ, 70/100 ≤ s → s < 90/100 → scoreToRiskLevel s = "HIGH") ∧
    (∀ s : ℚ, 50/100 ≤ s → s < 70/100 → scoreToRiskLevel s = "MEDIUM") ∧
    (∀ s : ℚ, 30/100 ≤ s → s < 50/100 → scoreToRiskLevel s = "LOW") ∧
    (∀ s : ℚ, s < 30/100 → scoreToRiskLevel s = "MINIMAL") ∧
    (∀ s t : ℚ, s ≤ t → riskRank (scoreToRiskLevel s) ≤ riskRank (scoreToRiskLevel t)) := by
  refine ⟨?_, ?_, ?_, ?_, ?_, ?_⟩
  · intro s h; unfold scoreToRiskLevel; rw [if_pos h]
  · intro s h h'; unfold scoreToRiskLevel
    rw [if_neg (by linarith), if_pos h]
  · intro s h h'; unfold scoreToRiskLevel
    rw [if_neg (by linarith), if_neg (by linarith), if_pos h]
  · intro s h h'; unfold scoreToRiskLevel
    rw [if_neg (by linarith), if_neg (by linarith), if_neg (by linarith), if_pos h]
  · intro s h; unfold scoreToRiskLevel
    rw [if_neg (by linarith), if_neg (by linarith), if_neg (by linarith),
      if_neg (by linarith)]
  · intro s t hst
    unfold scoreToRiskLevel
    split_ifs <;> simp [riskRank] <;> linarith

/-- C8 helper: every `TISCategory` constant's string normalizes back to the
same constant (its own name is either a key of `internalCategoryMapping`
mapped to itself, or — for `unknown` — hits no mapping and no fallback
keyword). -/
theorem normalizeCategory_fix (v : TISCategory) : NormalizeCategory v.str = v := by
  cases v <;> decide

/-- C8: `NormalizeCategory` is idempotent — applying it to the string of its
own output returns the same category. -/
theorem normalizeCategory_idempotent (c : String) :
    NormalizeCategory (NormalizeCategory c).str = NormalizeCategory c :=
  normalizeCategory_fix (NormalizeCategory c)

/-- C9: the gzip decoder returns at most 1 MiB (1024 × 1024 bytes) of
decompressed output, whatever the compressed payload would expand to. -/
theorem tryGzipDecompress_capped (inflate : String → Option (List Char))
    (input : String) : (TryGzipDecompress inflate input).length ≤ 1024 * 1024 := by
  unfold TryGzipDecompress
  cases inflate input with
  | none => simp
  | some out => simp

/-- C10: on an empty signal list `Aggregate` still returns the well-formed
TIER 3 result — score 0, ALLOW, MINIMAL, reason "No signals", no
deobfuscation, no escalation (and, being a total function, it cannot panic
or error). -/
theorem aggregate_empty_signals :
    (SignalAggregator.mk DefaultAggregationThresholds []).Aggregate =
      { finalScore := 0
        action := "ALLOW"
        riskLevel := "MINIMAL"
        reason := "No signals"
        decisionPath := "TIER_3_WEIGHTED_AGGREGATION"
        signals := []
        wasDeobfuscated := false
        obfuscationTypes := []
        escalationNeeded := ""
        totalLatencyMs := 0 } := by
  with_unfolding_all decide

/-- C1: any signal whose metadata holds `secrets_found = true` forces the
TIER 0 absolute result — final score 1.0, BLOCK, CRITICAL, path
TIER_0_SECRETS — whatever the other signals contain. -/
theorem secrets_found_forces_tier0 (a : SignalAggregator)
    (h : ∃ s ∈ a.signals, s.secretsFound = some true) :
    a.Aggregate.finalScore = 1 ∧ a.Aggregate.action = "BLOCK" ∧
    a.Aggregate.riskLevel = "CRITICAL" ∧
    a.Aggregate.decisionPath = "TIER_0_SECRETS" := by
  obtain ⟨s, hs, hsf⟩ := h
  have hfind : (a.signals.find? fun s => s.secretsFound == some true).isSome :=
    List.find?_isSome.mpr ⟨s, hs, by simp [hsf]⟩
  obtain ⟨s₀, hs₀⟩ := Option.isSome_iff_exists.mp hfind
  have hres : a.tier0Secrets =
      some { a.baseResult with
        finalScore := 1
        action := "BLOCK"
        riskLevel := "CRITICAL"
        reason := "Secrets/credentials detected"
        decisionPath := "TIER_0_SECRETS" } := by
    unfold SignalAggregator.tier0Secrets
    rw [hs₀]
    rfl
  rw [aggregate_eq_of_tier0Secrets hres]
  exact ⟨rfl, rfl, rfl, rfl⟩

/-- A concrete aggregator holding one secrets-bearing signal. -/
def secretSig : DetectionSignal :=
  { source := .heuristic
    score := 1
    confidence := 1
    label := "INJECTION"
    weight := 1
    reasons := ["aws key detected"]
    obfuscationTypes := []
    latencyMs := 1
    secretsFound := some true }

/-- The aggregator holding `secretSig` alone. -/
def secretAgg : SignalAggregator :=
  { thresholds := DefaultAggregationThresholds, signals := [secretSig] }

/-- C1 witness: the theorem applied to the concrete secrets aggregator. -/
theorem secrets_found_forces_tier0_witness :
    secretAgg.Aggregate.finalScore = 1 ∧ secretAgg.Aggregate.action = "BLOCK" ∧
    secretAgg.Aggregate.riskLevel = "CRITICAL" ∧
    secretAgg.Aggregate.decisionPath = "TIER_0_SECRETS" :=
  secrets_found_forces_tier0 secretAgg ⟨secretSig, by simp [secretAgg], rfl⟩

/-- `scoreToAction` hits BLOCK exactly at 0.70, WARN exactly on
[0.40, 0.70), ALLOW below. -/
theorem scoreToAction_characterization (s : ℚ) :
    (scoreToAction s = "BLOCK" ↔ 70/100 ≤ s) ∧
    (scoreToAction s = "WARN" ↔ 40/100 ≤ s ∧ s < 70/100) ∧
    (scoreToAction s = "ALLOW" ↔ s < 40/100) := by
  unfold scoreToAction
  split_ifs with h1 h2
  · exact ⟨⟨fun _ => h1, fun _ => rfl⟩,
      ⟨fun hc => absurd hc (by decide), fun hw => absurd h1 (not_le.mpr hw.2)⟩,
      ⟨fun hc => absurd hc (by decide), fun ha => (by linarith : False).elim⟩⟩
  · exact ⟨⟨fun hc => absurd hc (by decide), fun hb => absurd hb h1⟩,
      ⟨fun _ => ⟨h2, not_le.mp h1⟩, fun _ => rfl⟩,
      ⟨fun hc => absurd hc (by decide), fun ha => (by linarith : False).elim⟩⟩
  · exact ⟨⟨fun hc => absurd hc (by decide), fun hb => absurd hb h1⟩,
      ⟨fun hc => absurd hc (by decide), fun hw => absurd hw.1 h2⟩,
      ⟨fun _ => not_le.mp h2, fun _ => rfl⟩⟩

theorem tier0Secrets_action {a : SignalAggregator} {r : AggregatedResult}
    (h : a.tier0Secrets = some r) : r.action = scoreToAction r.finalScore := by
  unfold SignalAggregator.tier0Secrets at h
  rw [Option.map_eq_some'] at h
  obtain ⟨s, _, rfl⟩ := h
  show "BLOCK" = scoreToAction 1
  unfold scoreToAction
  rw [if_pos (by norm_num)]

theorem tier0HighScore_action {a : SignalAggregator} {r : AggregatedResult}
    (h : a.tier0HighScore = some r) : r.action = scoreToAction r.finalScore := by
  unfold SignalAggregator.tier0HighScore at h
  rw [Option.map_eq_some'] at h
  obtain ⟨s, hfind, rfl⟩ := h
  have hp := List.find?_some hfind
  rw [Bool.and_eq_true] at hp
  have hscore : 95/100 ≤ s.score := of_decide_eq_true hp.1
  show "BLOCK" = scoreToAction s.score
  unfold scoreToAction
  rw [if_pos (by linarith)]

theorem tier1_action {a : SignalAggregator} {r : AggregatedResult}
    (h : a.tier1HighConfidence = some r) : r.action = scoreToAction r.finalScore := by
  unfold SignalAggregator.tier1HighConfidence at h
  split at h
  · exact absurd h (by simp)
  · dsimp only at h
    split at h
    · injection h with h
      subst h
      rfl
    · exact absurd h (by simp)

theorem tier2_action {a : SignalAggregator} {r : AggregatedResult}
    (h : a.tier2Obfuscation = some r) : r.action = scoreToAction r.finalScore := by
  unfold SignalAggregator.tier2Obfuscation at h
  split at h
  · split at h
    · dsimp only at h
      split at h
      · rename_i r' heq
        injection h with h
        subst h
        split at heq
        · split at heq
          · injection heq with heq
            subst heq
            rfl
          · exact absurd heq (by simp)
        · exact absurd heq (by simp)
      · split at h
        · injection h with h
          subst h
          rfl
        · exact absurd h (by simp)
    · exact absurd h (by simp)
  · exact absurd h (by simp)

theorem tier3_action (a : SignalAggregator) :
    a.tier3Weighted.action = scoreToAction a.tier3Weighted.finalScore := rfl

/-- Every result of `Aggregate` carries the action `scoreToAction` assigns to
its own final score, whichever tier produced it. -/
theorem aggregate_action_eq (a : SignalAggregator) :
    a.Aggregate.action = scoreToAction a.Aggregate.finalScore := by
  cases h0 : a.tier0Secrets with
  | some r => rw [aggregate_eq_of_tier0Secrets h0]; exact tier0Secrets_action h0
  | none =>
    cases h1 : a.tier0HighScore with
    | some r => rw [aggregate_eq_of_tier0HighScore h0 h1]; exact tier0HighScore_action h1
    | none =>
      cases h2 : a.tier1HighConfidence with
      | some r => rw [aggregate_eq_of_tier1 h0 h1 h2]; exact tier1_action h2
      | none =>
        cases h3 : a.tier2Obfuscation with
        | some r => rw [aggregate_eq_of_tier2 h0 h1 h2 h3]; exact tier2_action h3
        | none => rw [aggregate_eq_of_tier3 h0 h1 h2 h3]; exact tier3_action a

/-- C2: on every decision path, `Aggregate`'s action is consistent with its
final score under the default thresholds — BLOCK iff score ≥ 0.70, WARN iff
0.40 ≤ score < 0.70, ALLOW otherwise. -/
theorem aggregate_action_consistent (a : SignalAggregator) :
    (a.Aggregate.action = "BLOCK" ↔ 70/100 ≤ a.Aggregate.finalScore) ∧
    (a.Aggregate.action = "WARN" ↔
      40/100 ≤ a.Aggregate.finalScore ∧ a.Aggregate.finalScore < 70/100) ∧
    (a.Aggregate.action = "ALLOW" ↔ a.Aggregate.finalScore < 40/100) := by
  rw [aggregate_action_eq a]
  exact scoreToAction_characterization a.Aggregate.finalScore

/-- The total effective weight Σ (weight × confidence) of an aggregator's
signals. -/
def effectiveWeightTotal (a : SignalAggregator) : ℚ :=
  (a.signals.map fun s => s.weight * s.confidence).sum

/-- The effective weighted sum Σ (score × weight × confidence) of an
aggregator's signals. -/
def effectiveWeightedSum (a : SignalAggregator) : ℚ :=
  (a.signals.map fun s => s.score * (s.weight * s.confidence)).sum

/-- C3: the TIER 3 fused score is the confidence-weighted mean
Σ(score × weight × confidence) / Σ(weight × confidence), and it is 0 whenever
the total effective weight is 0 — in particular on an empty signal list. -/
theorem weighted_score_formula (a : SignalAggregator) :
    (effectiveWeightTotal a = 0 → a.calculateWeightedScore = 0) ∧
    (effectiveWeightTotal a ≠ 0 →
      a.calculateWeightedScore = effectiveWeightedSum a / effectiveWeightTotal a) := by
  unfold SignalAggregator.calculateWeightedScore effectiveWeightTotal effectiveWeightedSum
  by_cases he : a.signals.isEmpty
  · rw [if_pos he]
    have hnil : a.signals = [] := List.isEmpty_iff.mp he
    refine ⟨fun _ => rfl, fun hne => absurd ?_ hne⟩
    rw [hnil]
    simp
  · rw [if_neg he]
    dsimp only
    exact ⟨fun h0 => by rw [if_pos h0], fun hne => by rw [if_neg hne]⟩

/-- The running first component of the benign-discount fold is the initial
value plus the sum of the weights of the matching patterns. -/
theorem benign_foldl_fst (text : String) :
    ∀ (l : List (String × ℚ)) (init : ℚ × List String),
      (l.foldl
        (fun acc p =>
          if categoryContainsSubstr (categoryToLower text) (categoryToLower p.1) then
            (acc.1 + p.2, acc.2 ++ [p.1])
          else acc)
        init).1 = init.1 + benignMatchedSum l text := by
  intro l
  induction l with
  | nil =>
    intro init
    simp [benignMatchedSum]
  | cons p t ih =>
    intro init
    rw [List.foldl_cons]
    by_cases hq : categoryContainsSubstr (categoryToLower text) (categoryToLower p.1)
    · rw [if_pos hq, ih]
      have hsum : benignMatchedSum (p :: t) text = p.2 + benignMatchedSum t text := by
        simp [benignMatchedSum, List.filter_cons, hq]
      rw [hsum]
      ring
    · rw [if_neg hq, ih]
      have hsum : benignMatchedSum (p :: t) text = benignMatchedSum t text := by
        simp [benignMatchedSum, List.filter_cons, hq]
      rw [hsum]

/-- C7: the benign-pattern discount never goes below the −0.65 floor; with no
patterns configured it is exactly 0, and otherwise it is the matched-weight
sum floored at `MaxBenignDiscount`. -/
theorem benign_discount_floor (ps : List (String × ℚ)) (text : String) :
    (MaxBenignDiscount ≤ (ApplyBenignPatternDiscount ps text).1) ∧
    (ps.isEmpty = true → ApplyBenignPatternDiscount ps text = (0, [])) ∧
    (ps.isEmpty = false →
      (ApplyBenignPatternDiscount ps text).1 =
        max (benignMatchedSum ps text) MaxBenignDiscount) := by
  unfold ApplyBenignPatternDiscount
  by_cases he : ps.isEmpty
  · rw [if_pos he]
    exact ⟨by norm_num [MaxBenignDiscount], fun _ => rfl,
      fun hc => absurd he (by simp [hc])⟩
  · rw [if_neg he]
    dsimp only
    rw [benign_foldl_fst text ps (0, [])]
    rw [zero_add]
    refine ⟨?_, fun hc => absurd hc he, fun _ => ?_⟩
    · by_cases hlt : benignMatchedSum ps text < MaxBenignDiscount
      · rw [if_pos hlt]
      · rw [if_neg hlt]
        exact le_of_not_lt hlt
    · by_cases hlt : benignMatchedSum ps text < MaxBenignDiscount
      · rw [if_pos hlt, max_eq_right (le_of_lt hlt)]
      · rw [if_neg hlt, max_eq_left (le_of_not_lt hlt)]

/-- A heuristic signal with score 0.4 on decoded text carrying an
obfuscation marker. -/
def vetoHeuristicSig : DetectionSignal :=
  { source := .heuristic
    score := 2/5
    confidence := 3/5
    label := "INJECTION"
    weight := 1
    reasons := []
    obfuscationTypes := ["base64"]
    latencyMs := 0
    secretsFound := none }

/-- A BERT signal saying SAFE with confidence 0.6, below the 0.85
high-confidence threshold. -/
def vetoBertSig : DetectionSignal :=
  { source := .bert
    score := 1/10
    confidence := 3/5
    label := "SAFE"
    weight := 1
    reasons := []
    obfuscationTypes := []
    latencyMs := 0
    secretsFound := none }

/-- Aggregator with the obfuscated heuristic 0.4 / uncertain-SAFE BERT pair
under default thresholds. -/
def vetoAgg : SignalAggregator :=
  { thresholds := DefaultAggregationThresholds, signals := [vetoHeuristicSig, vetoBertSig] }

/-- C4 counterexample: with a heuristic score of 0.4 — strictly below 0.5 —
the obfuscation veto still fires, because the code gates the veto on the
BOOSTED score (0.4 × 1.3 = 0.52 ≥ 0.5), not on the raw heuristic score as
the claim states. -/
theorem obfuscation_veto_fires_below_half :
    vetoHeuristicSig.score < 1/2 ∧
    vetoAgg.Aggregate.decisionPath = "TIER_2_OBFUSCATION_VETO" ∧
    vetoAgg.Aggregate.finalScore = 13/25 ∧
    vetoAgg.Aggregate.escalationNeeded = "deeper_go" := by
  with_unfolding_all decide

/-- C4 as amended: once TIER 0 and TIER 1 pass, obfuscation is present,
both signals exist and BERT reports SAFE below the high-confidence
threshold, the veto fires exactly when the boosted (clamped) heuristic score
reaches 0.5 — returning that boosted score with path
TIER_2_OBFUSCATION_VETO and escalation deeper_go — and never fires when the
boosted score stays below 0.5. -/
theorem obfuscation_veto_boosted_threshold (a : SignalAggregator)
    (h b : DetectionSignal)
    (h0 : a.tier0Secrets = none) (h1 : a.tier0HighScore = none)
    (h2 : a.tier1HighConfidence = none)
    (hobf : a.HasObfuscation = true)
    (hgh : a.GetSignal .heuristic = some h)
    (hgb : a.GetSignal .bert = some b)
    (hsafe : b.IsSafe = true)
    (hconf : b.confidence < a.thresholds.highConfidenceThreshold) :
    (1/2 ≤ capAtOne (h.score * a.thresholds.obfuscationBoost) →
      a.Aggregate.finalScore = capAtOne (h.score * a.thresholds.obfuscationBoost) ∧
      a.Aggregate.decisionPath = "TIER_2_OBFUSCATION_VETO" ∧
      a.Aggregate.escalationNeeded = "deeper_go") ∧
    (capAtOne (h.score * a.thresholds.obfuscationBoost) < 1/2 →
      a.Aggregate.decisionPath ≠ "TIER_2_OBFUSCATION_VETO") := by
  have hcond : (b.IsSafe &&
      decide (b.confidence < a.thresholds.highConfidenceThreshold)) = true := by
    rw [hsafe, decide_eq_true hconf]
    rfl
  constructor
  · intro hboost
    have ht2 : a.tier2Obfuscation = some
        { a.baseResult with
          finalScore := capAtOne (h.score * a.thresholds.obfuscationBoost)
          action := scoreToAction (capAtOne (h.score * a.thresholds.obfuscationBoost))
          riskLevel := scoreToRiskLevel (capAtOne (h.score * a.thresholds.obfuscationBoost))
          reason := "Obfuscation veto: BERT said SAFE (" ++
            ratStr (b.confidence * 100) ++ ") but obfuscation detected"
          decisionPath := "TIER_2_OBFUSCATION_VETO"
          escalationNeeded := "deeper_go" } := by
      unfold SignalAggregator.tier2Obfuscation
      rw [hobf]
      simp only [if_true]
      rw [hgh, hgb]
      dsimp only
      rw [if_pos hcond, if_pos hboost]
    rw [aggregate_eq_of_tier2 h0 h1 h2 ht2]
    exact ⟨rfl, rfl, rfl⟩
  · intro hboost
    have hveto : (if (b.IsSafe &&
        decide (b.confidence < a.thresholds.highConfidenceThreshold)) = true then
          if 1/2 ≤ capAtOne (h.score * a.thresholds.obfuscationBoost) then
            some { a.baseResult with
              finalScore := capAtOne (h.score * a.thresholds.obfuscationBoost)
              action := scoreToAction (capAtOne (h.score * a.thresholds.obfuscationBoost))
              riskLevel := scoreToRiskLevel (capAtOne (h.score * a.thresholds.obfuscationBoost))
              reason := "Obfuscation veto: BERT said SAFE (" ++
                ratStr (b.confidence * 100) ++ ") but obfuscation detected"
              decisionPath := "TIER_2_OBFUSCATION_VETO"
              escalationNeeded := "deeper_go" }
          else none
        else none) = none := by
      rw [if_pos hcond, if_neg (not_le.mpr hboost)]
    by_cases hmal : (b.IsMalicious && decide (4/10 ≤ h.score)) = true
    · have ht2 : a.tier2Obfuscation = some
          { a.baseResult with
            finalScore := capAtOne ((b.score + h.score) / 2 * a.thresholds.obfuscationBoost)
            action := scoreToAction (capAtOne ((b.score + h.score) / 2 * a.thresholds.obfuscationBoost))
            riskLevel := scoreToRiskLevel (capAtOne ((b.score + h.score) / 2 * a.thresholds.obfuscationBoost))
            reason := "Obfuscation + agreement: Go=" ++ ratStr h.score ++
              ", BERT=" ++ b.label ++ " (" ++ ratStr (b.confidence * 100) ++ ")"
            decisionPath := "TIER_2_OBFUSCATION_BOOST" } := by
        unfold SignalAggregator.tier2Obfuscation
        rw [hobf]
        simp only [if_true]
        rw [hgh, hgb]
        dsimp only
        rw [hveto, if_pos hmal]
      rw [aggregate_eq_of_tier2 h0 h1 h2 ht2]
      exact (by decide : ("TIER_2_OBFUSCATION_BOOST" : String) ≠ "TIER_2_OBFUSCATION_VETO")
    · have ht2 : a.tier2Obfuscation = none := by
        unfold SignalAggregator.tier2Obfuscation
        rw [hobf]
        simp only [if_true]
        rw [hgh, hgb]
        dsimp only
        rw [hveto, if_neg hmal]
      rw [aggregate_eq_of_tier3 h0 h1 h2 ht2]
      exact (by decide : ("TIER_3_WEIGHTED_AGGREGATION" : String) ≠ "TIER_2_OBFUSCATION_VETO")

/-- C4 witness: the amended veto condition applied to the concrete 0.4-score
aggregator (its boosted score 0.52 crosses the gate). -/
theorem obfuscation_veto_boosted_threshold_witness :
    vetoAgg.Aggregate.finalScore =
      capAtOne (vetoHeuristicSig.score * vetoAgg.thresholds.obfuscationBoost) ∧
    vetoAgg.Aggregate.decisionPath = "TIER_2_OBFUSCATION_VETO" ∧
    vetoAgg.Aggregate.escalationNeeded = "deeper_go" :=
  (obfuscation_veto_boosted_threshold vetoAgg vetoHeuristicSig vetoBertSig
    (by with_unfolding_all decide) (by with_unfolding_all decide)
    (by with_unfolding_all decide) (by with_unfolding_all decide)
    (by with_unfolding_all decide) (by with_unfolding_all decide)
    (by with_unfolding_all decide) (by with_unfolding_all decide)).1
    (by with_unfolding_all decide)

/-- A high-confidence heuristic signal, confidence 0.9, score 0.6. -/
def tieHeuristicSig : DetectionSignal :=
  { source := .heuristic
    score := 3/5
    confidence := 9/10
    label := "INJECTION"
    weight := 1
    reasons := []
    obfuscationTypes := []
    latencyMs := 0
    secretsFound := none }

/-- A high-confidence BERT signal with the same 0.9 confidence, score 0.8. -/
def tieBertSig : DetectionSignal :=
  { source := .bert
    score := 4/5
    confidence := 9/10
    label := "INJECTION"
    weight := 1
    reasons := []
    obfuscationTypes := []
    latencyMs := 0
    secretsFound := none }

/-- The aggregator holding the two equal-confidence agreeing signals,
heuristic first as the detectors insert them. -/
def tieAgg : SignalAggregator :=
  { thresholds := DefaultAggregationThresholds, signals := [tieHeuristicSig, tieBertSig] }

/-- C5 counterexample: with heuristic and BERT tied at confidence 0.9 and
agreeing on INJECTION, TIER 1 returns the heuristic's score 0.6 — the
EARLIER signal in the list — not the BERT score 0.8 that the claim's
"later source wins" rule demands. -/
theorem tier1_tie_earlier_signal_wins :
    tieHeuristicSig.confidence = tieBertSig.confidence ∧
    tieAgg.Aggregate.decisionPath = "TIER_1_HIGH_CONFIDENCE_AGREEMENT" ∧
    tieAgg.Aggregate.finalScore = tieHeuristicSig.score ∧
    tieAgg.Aggregate.finalScore ≠ tieBertSig.score := by
  with_unfolding_all decide

/-- When no later element strictly exceeds the head's confidence, the
stable-sort head is the head itself. -/
theorem firstMaxByConfidence_head (hd : DetectionSignal) :
    ∀ t : List DetectionSignal,
      (t.all fun s => decide (s.confidence ≤ hd.confidence)) = true →
      firstMaxByConfidence hd t = hd := by
  intro t
  induction t with
  | nil => intro _; rfl
  | cons s rest ih =>
    intro hall
    rw [List.all_cons, Bool.and_eq_true] at hall
    have hle : s.confidence ≤ hd.confidence := of_decide_eq_true hall.1
    unfold firstMaxByConfidence
    rw [if_neg (not_lt.mpr hle)]
    exact ih hall.2

/-- C5 as amended: past TIER 0, when the high-confidence signals are
`hd :: tl` (the aggregator's insertion order) and all agree with the top
signal's label, `Aggregate` returns the score of the FIRST signal in list
order attaining the maximal confidence, with path
TIER_1_HIGH_CONFIDENCE_AGREEMENT; in particular when no later signal
strictly exceeds the first one's confidence — ties included — the earliest
signal's score is returned, not the later source's. -/
theorem tier1_agreement_top_confidence_score (a : SignalAggregator)
    (hd : DetectionSignal) (tl : List DetectionSignal)
    (h0 : a.tier0Secrets = none) (h1 : a.tier0HighScore = none)
    (hfil : a.signals.filter DetectionSignal.IsHighConfidence = hd :: tl)
    (hall : ((hd :: tl).all fun s =>
      s.label == (firstMaxByConfidence hd tl).label) = true) :
    a.Aggregate.finalScore = (firstMaxByConfidence hd tl).score ∧
    a.Aggregate.decisionPath = "TIER_1_HIGH_CONFIDENCE_AGREEMENT" ∧
    ((tl.all fun s => decide (s.confidence ≤ hd.confidence)) = true →
      a.Aggregate.finalScore = hd.score) := by
  have ht1 : a.tier1HighConfidence = some
      { a.baseResult with
        finalScore := (firstMaxByConfidence hd tl).score
        action := scoreToAction (firstMaxByConfidence hd tl).score
        riskLevel := scoreToRiskLevel (firstMaxByConfidence hd tl).score
        reason := "High-confidence " ++ (firstMaxByConfidence hd tl).source.str ++
          ": " ++ (firstMaxByConfidence hd tl).label ++ " (" ++
          ratStr ((firstMaxByConfidence hd tl).confidence * 100) ++ ")"
        decisionPath := "TIER_1_HIGH_CONFIDENCE_AGREEMENT" } := by
    unfold SignalAggregator.tier1HighConfidence
    rw [hfil]
    dsimp only
    rw [if_pos hall]
  rw [aggregate_eq_of_tier1 h0 h1 ht1]
  refine ⟨rfl, rfl, fun htie => ?_⟩
  show (firstMaxByConfidence hd tl).score = hd.score
  rw [firstMaxByConfidence_head hd tl htie]

/-- C5 witness: the amended TIER 1 rule applied to the concrete tied
aggregator — the earliest (heuristic) signal's score comes back. -/
theorem tier1_agreement_top_confidence_score_witness :
    tieAgg.Aggregate.finalScore = tieHeuristicSig.score ∧
    tieAgg.Aggregate.decisionPath = "TIER_1_HIGH_CONFIDENCE_AGREEMENT" := by
  have happ := tier1_agreement_top_confidence_score tieAgg tieHeuristicSig [tieBertSig]
    (by with_unfolding_all decide) (by with_unfolding_all decide)
    (by with_unfolding_all decide) (by with_unfolding_all decide)
  exact ⟨happ.2.2 (by with_unfolding_all decide), happ.2.1⟩

end Citadel
